import Mathlib

/-!
Verification of `app/models/transaction_model.py` (TransactionModel), a MongoDB
data-access layer for "transaction" documents.  The Python module is shallowly
embedded: documents are association lists of BSON-like values, the collection is
a list of `(ObjectId, document)` pairs, wall-clock time and the client-generated
ObjectId are explicit arguments, and a `fault` flag injects a simulated
`PyMongoError` at the single store call each method performs.  Exceptions that
escape a method are modelled with `Except`: `bson.errors.InvalidId` (raised by
`ObjectId(...)` on an unparsable id and NOT a subclass of `PyMongoError`, hence
not caught by the `except PyMongoError` handlers), Python `KeyError`, and
`PyMongoError` itself.
-/

namespace TransactionModel

/-- BSON-like values as they occur in transaction documents: null, booleans,
integers, strings, ObjectIds (modelled as `Nat`), datetimes (modelled as `Nat`),
string-to-string subdocuments (the `new_added_columns_datatype` map) and string
arrays (the `rule_application_root_versions` list). -/
inductive BVal where
  | null
  | bool (b : Bool)
  | int (n : Int)
  | str (s : String)
  | oid (n : Nat)
  | time (t : Nat)
  | strMap (m : List (String × String))
  | strArr (l : List String)
  deriving DecidableEq, Repr

/-- A document: an insertion-ordered field map, as a Python dict / BSON doc. -/
abbrev Doc := List (String × BVal)

/-- The collection: ObjectId keys paired with the stored documents. -/
abbrev Docs := List (Nat × Doc)

/-- Hex digit character for a digit value, lowercase, as `str(ObjectId(...))`
produces (48 is the code of the zero digit, 87 + 10 that of the letter a). -/
def hexChar (d : Nat) : Char :=
  if d < 10 then Char.ofNat (48 + d) else Char.ofNat (87 + d)

/-- Numeric value of a hex digit character (0 on non-hex input, unused there). -/
def hexVal (c : Char) : Nat :=
  if 97 ≤ c.toNat then c.toNat - 87
  else if 65 ≤ c.toNat then c.toNat - 55
  else c.toNat - 48

/-- Whether a character is a hexadecimal digit, as `bson.ObjectId` accepts. -/
def isHexDigitChar (c : Char) : Bool :=
  (48 ≤ c.toNat && c.toNat ≤ 57) || (97 ≤ c.toNat && c.toNat ≤ 102) ||
    (65 ≤ c.toNat && c.toNat ≤ 70)

/-- Little-endian base-16 digits of `n`, exactly `w` of them (leading zeros
kept), so a 12-byte ObjectId is `hexDigitsLE 24 n`. -/
def hexDigitsLE : Nat → Nat → List Nat
  | 0, _ => []
  | w + 1, n => n % 16 :: hexDigitsLE w (n / 16)

/-- Value of a little-endian base-16 digit list. -/
def valLE : List Nat → Nat
  | [] => 0
  | d :: ds => d + 16 * valLE ds

/-- Rendering of an ObjectId as its 24-character lowercase hex string,
modelling Python's `str(ObjectId)`. -/
def oidToString (n : Nat) : String :=
  ⟨((hexDigitsLE 24 n).reverse).map hexChar⟩

/-- Parsing of an id string as `bson.ObjectId(...)` does: it succeeds exactly
on 24-character hex strings, otherwise `InvalidId` is raised (`none` here). -/
def parseOid (s : String) : Option Nat :=
  if s.data.length == 24 && s.data.all isHexDigitChar then
    some (valLE ((s.data.map hexVal).reverse))
  else none

/-- Exceptions a method can raise or catch.  `invalidId` is
`bson.errors.InvalidId`, which is a `BSONError`, not a `PyMongoError`, so the
`except PyMongoError` handlers of the module do not catch it. -/
inductive PyExc where
  | invalidId
  | keyError
  | pyMongoError
  deriving DecidableEq, Repr

deriving instance DecidableEq for Except

/-- Field assignment on a document (Python `d[k] = v`, Mongo `$set` of a
top-level field): replace in place when the key is present, append otherwise. -/
def setField (d : Doc) (k : String) (v : BVal) : Doc :=
  if d.any (fun p => p.1 == k) then d.map (fun p => if p.1 == k then (k, v) else p)
  else d ++ [(k, v)]

/-- Key removal (Python `d.pop(k, None)` on a dict). -/
def popKey (d : Doc) (k : String) : Doc :=
  d.filter (fun p => !(p.1 == k))

/-- Application of a `$set` field map to a document, field by field in order. -/
def applySet (fields : Doc) (d : Doc) : Doc :=
  fields.foldl (fun acc p => setField acc p.1 p.2) d

/-- Key assignment inside a string-to-string subdocument (Mongo dotted-path
`$set` on an existing subdocument). -/
def strMapSet (m : List (String × String)) (k v : String) : List (String × String) :=
  if m.any (fun p => p.1 == k) then m.map (fun p => if p.1 == k then (k, v) else p)
  else m ++ [(k, v)]

/-- Python `d.get(k, dflt)`. -/
def docGetD (d : Doc) (k : String) (dflt : BVal) : BVal :=
  match d.lookup k with
  | some v => v
  | none => dflt

/-- Python truthiness of `d.get(k)`: `None`/missing, `False`, `0`, empty
string, empty dict and empty list are falsy, everything else truthy. -/
def truthy : Option BVal → Bool
  | none => false
  | some .null => false
  | some (.bool b) => b
  | some (.int n) => !(n == 0)
  | some (.str s) => !(s == "")
  | some (.oid _) => true
  | some (.time _) => true
  | some (.strMap m) => !m.isEmpty
  | some (.strArr l) => !l.isEmpty

/-- Python `str(...)` on the values that reach it in this module (ObjectIds and
strings; the remaining cases are given a harmless rendering). -/
def pyStr : BVal → String
  | .str s => s
  | .oid n => oidToString n
  | .null => "None"
  | .bool b => if b then "True" else "False"
  | .int n => toString n
  | .time t => toString t
  | .strMap _ => ""
  | .strArr _ => ""

/-- Model of `collection.find_one({"_id": k})`: the first stored document with that id,
returned with its `_id` field in front, or nothing. -/
def findOne (docs : Docs) (k : Nat) : Option Doc :=
  (docs.find? (fun p => p.1 == k)).map (fun p => ("_id", BVal.oid p.1) :: p.2)

/-- Replacement of the (first) document stored under `k`. -/
def replaceFirst (docs : Docs) (k : Nat) (d2 : Doc) : Docs :=
  match docs with
  | [] => []
  | p :: rest => if p.1 == k then (p.1, d2) :: rest else p :: replaceFirst rest k d2

/-- Model of `collection.update_one({"_id": k}, mod)`: applies the update operator
`upd` to the matched document.  `none` models a write error (a
`PyMongoError`); on success the flag is Mongo's `modified_count > 0`, true
exactly when the stored document actually changed. -/
def updateOne (docs : Docs) (k : Nat) (upd : Doc → Option Doc) :
    Option (Docs × Bool) :=
  match docs.find? (fun p => p.1 == k) with
  | none => some (docs, false)
  | some p =>
    match upd p.2 with
    | none => none
    | some d2 => some (replaceFirst docs k d2, decide (d2 ≠ p.2))

/-- Model of `collection.delete_one({"_id": k})`: removes the first document stored
under `k`; the flag is `deleted_count > 0`. -/
def deleteOne (docs : Docs) (k : Nat) : Docs × Bool :=
  match docs with
  | [] => ([], false)
  | p :: rest =>
    if p.1 == k then (rest, true)
    else
      let r := deleteOne rest k
      (p :: r.1, r.2)

/-- Model of `collection.insert_one(d)` with client-generated id `k`: a duplicate key
raises a `PyMongoError` (`none`), otherwise the document is appended. -/
def insertOne (docs : Docs) (k : Nat) (d : Doc) : Option Docs :=
  if docs.any (fun p => p.1 == k) then none else some (docs ++ [(k, d)])

/-- Modelled from the spec: the timestamp helper `add_timestamps`
(`app/utils/timestamps`, whose source is not part of the given files) —
"given a field map and a mode flag, returns the map augmented with
`created_at` (create mode) or `updated_at` (update mode)".  The wall clock is
the explicit `now` argument. -/
def add_timestamps (d : Doc) (is_update : Bool) (now : Nat) : Doc :=
  if is_update then setField d "updated_at" (.time now)
  else setField d "created_at" (.time now)

/-- Embedding of `TransactionModel.get_transaction`: parses the id (an unparsable id raises
`InvalidId`, which the `except PyMongoError` handler does not catch), looks the
document up, and renders `_id` and `user_id` as strings; `None` on a missing
document or on a store error. -/
def get_transaction (docs : Docs) (fault : Bool) (transaction_id : String) :
    Except PyExc (Option Doc) :=
  match parseOid transaction_id with
  | none => .error .invalidId
  | some k =>
    if fault then .ok none
    else
      match findOne docs k with
      | none => .ok none
      | some t =>
        match t.lookup "_id" with
        | none => .error .keyError
        | some idv =>
          let t1 := setField t "_id" (.str (pyStr idv))
          match t1.lookup "user_id" with
          | none => .error .keyError
          | some uv => .ok (some (setField t1 "user_id" (.str (pyStr uv))))

/-- The `transaction_data` dict literal of `create_transaction` (its default
field set), before the optional asset classes and the timestamps are added. -/
def transaction_data (u : Nat) (name base_file_path : String) : Doc :=
  [("user_id", .oid u), ("name", .str name),
   ("base_file_path", .str base_file_path),
   ("version_number", .int 0), ("base_file", .null),
   ("preprocessed_file", .null), ("column_rename_file", .null),
   ("temp_changing_datatype_of_column", .null),
   ("changed_datatype_of_column", .null),
   ("are_all_steps_complete", .bool false),
   ("new_added_columns_datatype", .strMap []),
   ("temp_rbi_rules_applied", .null), ("final_rbi_rules_applied", .null),
   ("cutoff_date", .null)]

/-- The two conditional assignments of `create_transaction` that add the
optional `primary_asset_class` / `secondary_asset_class` fields when given. -/
def addAssetClasses (d : Doc) (primary_asset_class secondary_asset_class : Option String) :
    Doc :=
  let d1 := match primary_asset_class with
    | some pc => setField d "primary_asset_class" (.str pc)
    | none => d
  match secondary_asset_class with
  | some sc => setField d1 "secondary_asset_class" (.str sc)
  | none => d1

/-- Embedding of `TransactionModel.create_transaction`: builds the default document, adds
the optional asset classes, stamps `created_at` via `add_timestamps`, inserts
it and returns the new id as a string; `None` on a store error.  `oid` is the
client-generated ObjectId and `now` the wall clock. -/
def create_transaction (docs : Docs) (fault : Bool) (oid : Nat) (now : Nat)
    (user_id name base_file_path : String)
    (primary_asset_class secondary_asset_class : Option String) :
    Except PyExc (Option String) × Docs :=
  match parseOid user_id with
  | none => (.error .invalidId, docs)
  | some u =>
    if fault then (.ok none, docs)
    else
      let d3 := add_timestamps
        (addAssetClasses (transaction_data u name base_file_path)
          primary_asset_class secondary_asset_class) false now
      match insertOne docs oid d3 with
      | none => (.ok none, docs)
      | some docs2 => (.ok (some (oidToString oid)), docs2)

/-- Embedding of `TransactionModel.add_new_column_datatype`: dotted-path `$set` of
`new_added_columns_datatype.column_name` together with `updated_at`; a
dotted set into a non-subdocument field is a write error, caught as a
`PyMongoError` and reported as `False`. -/
def add_new_column_datatype (docs : Docs) (fault : Bool) (now : Nat)
    (transaction_id column_name datatype : String) : Except PyExc Bool × Docs :=
  match parseOid transaction_id with
  | none => (.error .invalidId, docs)
  | some k =>
    if fault then (.ok false, docs)
    else
      let upd : Doc → Option Doc := fun d =>
        match d.lookup "new_added_columns_datatype" with
        | some (.strMap m) =>
          some (setField
            (setField d "new_added_columns_datatype"
              (.strMap (strMapSet m column_name datatype)))
            "updated_at" (.time now))
        | none =>
          some (setField
            (setField d "new_added_columns_datatype"
              (.strMap [(column_name, datatype)]))
            "updated_at" (.time now))
        | some _ => none
      match updateOne docs k upd with
      | none => (.ok false, docs)
      | some (docs2, m) => (.ok m, docs2)

/-- Embedding of `TransactionModel.update_transaction`: pops `_id` and `user_id` from the
field map, stamps `updated_at` via `add_timestamps(..., is_update=True)`, and
applies the result as a `$set`. -/
def update_transaction (docs : Docs) (fault : Bool) (now : Nat)
    (transaction_id : String) (update_fields : Doc) : Except PyExc Bool × Docs :=
  let f1 := popKey (popKey update_fields "_id") "user_id"
  let f2 := add_timestamps f1 true now
  match parseOid transaction_id with
  | none => (.error .invalidId, docs)
  | some k =>
    if fault then (.ok false, docs)
    else
      match updateOne docs k (fun d => some (applySet f2 d)) with
      | none => (.ok false, docs)
      | some (docs2, m) => (.ok m, docs2)

/-- Embedding of `TransactionModel.delete_transaction`: `delete_one` and its
`deleted_count > 0` flag. -/
def delete_transaction (docs : Docs) (fault : Bool) (transaction_id : String) :
    Except PyExc Bool × Docs :=
  match parseOid transaction_id with
  | none => (.error .invalidId, docs)
  | some k =>
    if fault then (.ok false, docs)
    else
      let r := deleteOne docs k
      (.ok r.2, r.1)

/-- Loop body of `get_transactions_by_user`: renders `_id` and `user_id` as
strings, then sets `base_file_location` to the looked-up version's
`files_path` when `base_file` is truthy and the version exists, to `""` when
`base_file` is falsy or missing, and leaves the document as is when
`base_file` is truthy but the version lookup returns nothing. -/
def enrichTransaction (vlookup : BVal → Option Doc) (t : Doc) :
    Except PyExc Doc :=
  match t.lookup "_id" with
  | none => .error .keyError
  | some idv =>
    let t1 := setField t "_id" (.str (pyStr idv))
    match t1.lookup "user_id" with
    | none => .error .keyError
    | some uv =>
      let t2 := setField t1 "user_id" (.str (pyStr uv))
      match t2.lookup "base_file" with
      | some bf =>
        if truthy (some bf) then
          match vlookup bf with
          | some bv =>
            .ok (setField t2 "base_file_location" (docGetD bv "files_path" (.str "")))
          | none => .ok t2
        else .ok (setField t2 "base_file_location" (.str ""))
      | none => .ok (setField t2 "base_file_location" (.str ""))

/-- Model of `collection.find({"user_id": u})`: all documents whose `user_id` equals
the given ObjectId, in store order, each with its `_id` field in front. -/
def findByUser (docs : Docs) (u : Nat) : List Doc :=
  (docs.filter (fun p => p.2.lookup "user_id" == some (.oid u))).map
    (fun p => ("_id", BVal.oid p.1) :: p.2)

/-- Embedding of `TransactionModel.get_transactions_by_user`: filters the collection by
owner and enriches each hit; an empty list on a store error.  `vlookup` is the
`TransactionVersionModel.get_version` collaborator (modelled from the spec:
"given a version identifier, returns a record exposing a `files_path` string,
or nothing"). -/
def get_transactions_by_user (docs : Docs) (fault : Bool)
    (vlookup : BVal → Option Doc) (user_id : String) :
    Except PyExc (List Doc) :=
  match parseOid user_id with
  | none => .error .invalidId
  | some u =>
    if fault then .ok []
    else (findByUser docs u).mapM (enrichTransaction vlookup)

/-- Embedding of `TransactionModel.set_base_file`: `$set` of `base_file` and `updated_at`. -/
def set_base_file (docs : Docs) (fault : Bool) (now : Nat)
    (transaction_id version_id : String) : Except PyExc Bool × Docs :=
  match parseOid transaction_id with
  | none => (.error .invalidId, docs)
  | some k =>
    if fault then (.ok false, docs)
    else
      match updateOne docs k (fun d =>
          some (applySet [("base_file", .str version_id),
                          ("updated_at", .time now)] d)) with
      | none => (.ok false, docs)
      | some (docs2, m) => (.ok m, docs2)

/-- Embedding of `TransactionModel.set_preprocessed_file`: `$set` of `preprocessed_file`
and `updated_at`. -/
def set_preprocessed_file (docs : Docs) (fault : Bool) (now : Nat)
    (transaction_id version_id : String) : Except PyExc Bool × Docs :=
  match parseOid transaction_id with
  | none => (.error .invalidId, docs)
  | some k =>
    if fault then (.ok false, docs)
    else
      match updateOne docs k (fun d =>
          some (applySet [("preprocessed_file", .str version_id),
                          ("updated_at", .time now)] d)) with
      | none => (.ok false, docs)
      | some (docs2, m) => (.ok m, docs2)

/-- Embedding of `TransactionModel.change_transaction_name`: `$set` of `name` plus the
`updated_at` stamp added by `add_timestamps(..., is_update=True)`. -/
def change_transaction_name (docs : Docs) (fault : Bool) (now : Nat)
    (transaction_id new_name : String) : Except PyExc Bool × Docs :=
  match parseOid transaction_id with
  | none => (.error .invalidId, docs)
  | some k =>
    if fault then (.ok false, docs)
    else
      match updateOne docs k (fun d =>
          some (applySet (add_timestamps [("name", .str new_name)] true now) d)) with
      | none => (.ok false, docs)
      | some (docs2, m) => (.ok m, docs2)

/-- Embedding of `TransactionModel.update_cutoff_date`: `$set` of `cutoff_date` (stored
verbatim, no format validation) and `updated_at`. -/
def update_cutoff_date (docs : Docs) (fault : Bool) (now : Nat)
    (transaction_id cutoff_date : String) : Except PyExc Bool × Docs :=
  match parseOid transaction_id with
  | none => (.error .invalidId, docs)
  | some k =>
    if fault then (.ok false, docs)
    else
      match updateOne docs k (fun d =>
          some (applySet [("cutoff_date", .str cutoff_date),
                          ("updated_at", .time now)] d)) with
      | none => (.ok false, docs)
      | some (docs2, m) => (.ok m, docs2)

/-- Embedding of `TransactionModel.add_rule_application_root_version`: `$push` of the
version id onto `rule_application_root_versions` (created as a one-element
array when missing; a push onto a non-array field is a write error).  No
timestamp field is touched. -/
def add_rule_application_root_version (docs : Docs) (fault : Bool)
    (transaction_id version_id : String) : Except PyExc Bool × Docs :=
  match parseOid transaction_id with
  | none => (.error .invalidId, docs)
  | some k =>
    if fault then (.ok false, docs)
    else
      let upd : Doc → Option Doc := fun d =>
        match d.lookup "rule_application_root_versions" with
        | none => some (setField d "rule_application_root_versions" (.strArr [version_id]))
        | some (.strArr l) =>
          some (setField d "rule_application_root_versions" (.strArr (l ++ [version_id])))
        | some _ => none
      match updateOne docs k upd with
      | none => (.ok false, docs)
      | some (docs2, m) => (.ok m, docs2)

/-- Embedding of `TransactionModel.remove_rule_application_root_version`: `$pull` of the
version id from `rule_application_root_versions` (a no-op when the field is
missing; a pull from a non-array field is a write error).  No timestamp field
is touched, and no sub-version cleanup happens despite the docstring. -/
def remove_rule_application_root_version (docs : Docs) (fault : Bool)
    (transaction_id version_id : String) : Except PyExc Bool × Docs :=
  match parseOid transaction_id with
  | none => (.error .invalidId, docs)
  | some k =>
    if fault then (.ok false, docs)
    else
      let upd : Doc → Option Doc := fun d =>
        match d.lookup "rule_application_root_versions" with
        | none => some d
        | some (.strArr l) =>
          some (setField d "rule_application_root_versions"
            (.strArr (l.filter (fun x => !(x == version_id)))))
        | some _ => none
      match updateOne docs k upd with
      | none => (.ok false, docs)
      | some (docs2, m) => (.ok m, docs2)

/-- The document stored under id `k`, if any. -/
def storedDoc (docs : Docs) (k : Nat) : Option Doc :=
  (docs.find? (fun p => p.1 == k)).map Prod.snd

/-! Helper lemmas about documents and the store. -/

theorem lookup_map_set (d : Doc) (k : String) (v : BVal) :
    d.any (fun p => p.1 == k) = true →
    (d.map (fun p => if p.1 == k then (k, v) else p)).lookup k = some v := by
  induction d with
  | nil => intro h; simp at h
  | cons p rest ih =>
    intro h
    obtain ⟨a, b⟩ := p
    by_cases hak : a = k
    · subst hak
      simp [List.lookup_cons]
    · have hrest : rest.any (fun p => p.1 == k) = true := by
        simpa [List.any_cons, hak] using h
      have hka : (k == a) = false := beq_false_of_ne fun he => hak he.symm
      simpa [List.lookup_cons, hak, hka] using ih hrest

theorem lookup_of_not_any (d : Doc) (k : String)
    (h : d.any (fun p => p.1 == k) = false) : d.lookup k = none := by
  induction d with
  | nil => rfl
  | cons p rest ih =>
    obtain ⟨a, b⟩ := p
    simp only [List.any_cons, Bool.or_eq_false_iff] at h
    have hak : ¬ a = k := by simpa using h.1
    have hka : (k == a) = false := beq_false_of_ne fun he => hak he.symm
    simpa [List.lookup_cons, hka] using ih h.2

theorem lookup_append_fresh (d : Doc) (k : String) (v : BVal)
    (h : d.lookup k = none) : (d ++ [(k, v)]).lookup k = some v := by
  induction d with
  | nil => simp
  | cons p rest ih =>
    obtain ⟨a, b⟩ := p
    by_cases hak : k = a
    · simp [List.lookup_cons, hak] at h
    · have hka : (k == a) = false := beq_false_of_ne hak
      rw [List.cons_append, List.lookup_cons]
      rw [List.lookup_cons] at h
      simp only [hka] at h ⊢
      exact ih h

theorem lookup_setField_self (d : Doc) (k : String) (v : BVal) :
    (setField d k v).lookup k = some v := by
  unfold setField
  cases ha : d.any (fun p => p.1 == k) with
  | true => simpa using lookup_map_set d k v ha
  | false => simpa using lookup_append_fresh d k v (lookup_of_not_any d k ha)

theorem map_set_id (d : Doc) (k : String) (v : BVal)
    (hr : d.any (fun p => p.1 == k) = false) :
    d.map (fun p => if p.1 == k then (k, v) else p) = d := by
  induction d with
  | nil => rfl
  | cons p rest ih =>
    simp only [List.any_cons, Bool.or_eq_false_iff] at hr
    simp only [List.map_cons, ih hr.2]
    rw [if_neg (by simp [hr.1])]

theorem lookup_setField_ne (d : Doc) (k : String) (v : BVal) (k' : String)
    (h : k' ≠ k) : (setField d k v).lookup k' = d.lookup k' := by
  unfold setField
  cases ha : d.any (fun p => p.1 == k) with
  | true =>
    simp only [if_true]
    induction d with
    | nil => simp
    | cons p rest ih =>
      obtain ⟨a, b⟩ := p
      by_cases hak : a = k
      · subst hak
        have hrest :
            (rest.map (fun p => if p.1 == a then (a, v) else p)).lookup k'
              = rest.lookup k' := by
          cases hr : rest.any (fun p => p.1 == a) with
          | true => exact ih hr
          | false => rw [map_set_id rest a v hr]
        have hkq : (k' == a) = false := beq_false_of_ne h
        simpa [List.lookup_cons, hkq] using hrest
      · have hrest :
            (rest.map (fun p => if p.1 == k then (k, v) else p)).lookup k'
              = rest.lookup k' := by
          cases hr : rest.any (fun p => p.1 == k) with
          | true => exact ih hr
          | false => rw [map_set_id rest k v hr]
        by_cases hq : k' = a
        · simp [List.lookup_cons, hak, hq]
        · have hkq : (k' == a) = false := beq_false_of_ne hq
          simpa [List.lookup_cons, hak, hkq] using hrest
  | false =>
    simp only [Bool.false_eq_true, if_false]
    induction d with
    | nil =>
      rw [List.nil_append, List.lookup_cons, beq_false_of_ne h]
    | cons p rest ih =>
      obtain ⟨a, b⟩ := p
      simp only [List.any_cons, Bool.or_eq_false_iff] at ha
      by_cases hq : k' = a
      · simp [List.lookup_cons, hq]
      · have hkq : (k' == a) = false := beq_false_of_ne hq
        simpa [List.lookup_cons, hkq] using ih (by simp [ha.2])

theorem mem_setField (d : Doc) (k : String) (v : BVal) (p : String × BVal)
    (h : p ∈ setField d k v) : p = (k, v) ∨ (p ∈ d ∧ p.1 ≠ k) := by
  unfold setField at h
  cases ha : d.any (fun q => q.1 == k) with
  | true =>
    rw [ha] at h
    simp only [if_true, List.mem_map] at h
    obtain ⟨q, hq, hqe⟩ := h
    by_cases hk : q.1 = k
    · left
      rw [← hqe, if_pos (by simp [hk])]
    · right
      rw [← hqe, if_neg (by simp [hk])]
      exact ⟨hq, hk⟩
  | false =>
    rw [ha] at h
    simp only [Bool.false_eq_true, if_false, List.mem_append, List.mem_singleton] at h
    rcases h with h | h
    · right
      refine ⟨h, ?_⟩
      have := List.any_eq_false.mp ha p h
      simpa using this
    · left; exact h

theorem mem_setField_self (d : Doc) (k : String) (v : BVal) :
    (k, v) ∈ setField d k v := by
  unfold setField
  cases ha : d.any (fun q => q.1 == k) with
  | true =>
    simp only [if_true]
    obtain ⟨q, hq, hqk⟩ := List.any_eq_true.mp ha
    refine List.mem_map.mpr ⟨q, hq, ?_⟩
    simp [hqk]
  | false =>
    simp only [Bool.false_eq_true, if_false]
    simp

theorem mem_popKey (d : Doc) (k : String) (p : String × BVal)
    (h : p ∈ popKey d k) : p ∈ d ∧ p.1 ≠ k := by
  unfold popKey at h
  have h1 := List.of_mem_filter h
  have h2 := List.mem_of_mem_filter h
  exact ⟨h2, by simpa using h1⟩

theorem lookup_applySet_not_mem (fields : Doc) (d : Doc) (k : String)
    (h : ∀ p ∈ fields, p.1 ≠ k) :
    (applySet fields d).lookup k = d.lookup k := by
  induction fields generalizing d with
  | nil => simp [applySet]
  | cons q rest ih =>
    have hq : q.1 ≠ k := h q (by simp)
    have hstep : applySet (q :: rest) d = applySet rest (setField d q.1 q.2) := rfl
    rw [hstep, ih (setField d q.1 q.2) (fun p hp => h p (by simp [hp])),
        lookup_setField_ne _ _ _ _ fun he => hq he.symm]

theorem lookup_applySet_nodup_mem (fields : Doc) (k : String) (v : BVal)
    (h1 : (fields.map Prod.fst).Nodup) (h2 : (k, v) ∈ fields) :
    ∀ d, (applySet fields d).lookup k = some v := by
  induction fields with
  | nil => simp at h2
  | cons q rest ih =>
    intro d
    have hstep : applySet (q :: rest) d = applySet rest (setField d q.1 q.2) := rfl
    simp only [List.map_cons, List.nodup_cons] at h1
    rcases List.mem_cons.mp h2 with h2 | h2
    · subst h2
      have hnotin : ∀ p ∈ rest, p.1 ≠ k := by
        intro p hp he
        have hm : p.1 ∈ List.map Prod.fst rest := List.mem_map_of_mem Prod.fst hp
        rw [he] at hm
        exact h1.1 hm
      rw [hstep, lookup_applySet_not_mem rest _ k hnotin]
      exact lookup_setField_self d k v
    · rw [hstep]
      exact ih h1.2 h2 _

theorem keys_setField_any (d : Doc) (k : String) (v : BVal)
    (ha : d.any (fun q => q.1 == k) = true) :
    (setField d k v).map Prod.fst = d.map Prod.fst := by
  unfold setField
  rw [ha]
  simp only [if_true, List.map_map]
  apply List.map_congr_left
  intro p _
  by_cases hp : p.1 = k
  · simp [hp]
  · simp only [Function.comp_apply]
    rw [if_neg (by simp [hp])]

theorem nodup_keys_setField (d : Doc) (k : String) (v : BVal)
    (h : (d.map Prod.fst).Nodup) : ((setField d k v).map Prod.fst).Nodup := by
  cases ha : d.any (fun q => q.1 == k) with
  | true => rw [keys_setField_any d k v ha]; exact h
  | false =>
    unfold setField
    rw [ha, if_neg (by simp), List.map_append]
    simp only [List.nodup_append, List.map_cons, List.map_nil]
    refine ⟨h, List.nodup_singleton k, ?_⟩
    intro a hha hk
    simp only [List.mem_singleton] at hk
    subst hk
    obtain ⟨p, hp, hpk⟩ := List.mem_map.mp hha
    have := List.any_eq_false.mp ha p hp
    rw [hpk] at this
    simp at this

theorem nodup_keys_popKey (d : Doc) (k : String)
    (h : (d.map Prod.fst).Nodup) : ((popKey d k).map Prod.fst).Nodup := by
  have hs : List.Sublist (popKey d k) d := List.filter_sublist d
  exact (hs.map Prod.fst).nodup h

theorem replaceFirst_cons_pos (p : Nat × Doc) (rest : Docs) (k : Nat) (d2 : Doc)
    (h : p.1 = k) : replaceFirst (p :: rest) k d2 = (p.1, d2) :: rest := by
  simp [replaceFirst, h]

theorem replaceFirst_cons_neg (p : Nat × Doc) (rest : Docs) (k : Nat) (d2 : Doc)
    (h : ¬ p.1 = k) : replaceFirst (p :: rest) k d2 = p :: replaceFirst rest k d2 := by
  simp [replaceFirst, h]

theorem find?_replaceFirst_self (docs : Docs) (k : Nat) (d2 : Doc)
    (q : Nat × Doc) (h : docs.find? (fun p => p.1 == k) = some q) :
    (replaceFirst docs k d2).find? (fun p => p.1 == k) = some (q.1, d2) := by
  induction docs with
  | nil => simp at h
  | cons p rest ih =>
    by_cases hp : p.1 = k
    · rw [List.find?_cons_of_pos _ (by simpa using hp)] at h
      cases h
      rw [replaceFirst_cons_pos _ _ _ _ hp]
      rw [List.find?_cons_of_pos _ (by simpa using hp)]
    · rw [List.find?_cons_of_neg _ (by simpa using hp)] at h
      rw [replaceFirst_cons_neg _ _ _ _ hp]
      rw [List.find?_cons_of_neg _ (by simpa using hp)]
      exact ih h

theorem keys_replaceFirst (docs : Docs) (k : Nat) (d2 : Doc) :
    (replaceFirst docs k d2).map Prod.fst = docs.map Prod.fst := by
  induction docs with
  | nil => rfl
  | cons p rest ih =>
    by_cases hp : p.1 = k
    · rw [replaceFirst_cons_pos _ _ _ _ hp]
      simp
    · rw [replaceFirst_cons_neg _ _ _ _ hp]
      simp [ih]

theorem forall₂_replaceFirst (docs : Docs) (k : Nat) (d2 : Doc)
    (R : Nat × Doc → Nat × Doc → Prop)
    (hrefl : ∀ p, R p p) (hrepl : ∀ p : Nat × Doc, p.1 = k → R (p.1, d2) p) :
    List.Forall₂ R (replaceFirst docs k d2) docs := by
  induction docs with
  | nil => exact List.Forall₂.nil
  | cons p rest ih =>
    by_cases hp : p.1 = k
    · rw [replaceFirst_cons_pos _ _ _ _ hp]
      exact List.Forall₂.cons (hrepl p hp) (List.forall₂_same.mpr fun x _ => hrefl x)
    · rw [replaceFirst_cons_neg _ _ _ _ hp]
      exact List.Forall₂.cons (hrefl p) ih

theorem deleteOne_cons_pos (p : Nat × Doc) (rest : Docs) (k : Nat)
    (h : p.1 = k) : deleteOne (p :: rest) k = (rest, true) := by
  simp [deleteOne, h]

theorem deleteOne_cons_neg (p : Nat × Doc) (rest : Docs) (k : Nat)
    (h : ¬ p.1 = k) :
    deleteOne (p :: rest) k = (p :: (deleteOne rest k).1, (deleteOne rest k).2) := by
  simp [deleteOne, h]

theorem deleteOne_flag (docs : Docs) (k : Nat) :
    (deleteOne docs k).2 = true ↔ k ∈ docs.map Prod.fst := by
  induction docs with
  | nil => simp [deleteOne]
  | cons p rest ih =>
    by_cases hp : p.1 = k
    · rw [deleteOne_cons_pos _ _ _ hp]
      simp [hp]
    · rw [deleteOne_cons_neg _ _ _ hp]
      show (deleteOne rest k).2 = true ↔ _
      rw [ih]
      simp only [List.map_cons, List.mem_cons]
      constructor
      · exact Or.inr
      · rintro (h | h)
        · exact absurd h.symm hp
        · exact h

theorem find?_deleteOne_self (docs : Docs) (k : Nat)
    (hnd : (docs.map Prod.fst).Nodup) :
    ((deleteOne docs k).1).find? (fun p => p.1 == k) = none := by
  induction docs with
  | nil => simp [deleteOne]
  | cons p rest ih =>
    simp only [List.map_cons, List.nodup_cons] at hnd
    by_cases hp : p.1 = k
    · rw [deleteOne_cons_pos _ _ _ hp]
      rw [List.find?_eq_none]
      intro q hq hqk
      have hk : q.1 = k := by simpa using hqk
      apply hnd.1
      rw [hp, ← hk]
      exact List.mem_map_of_mem Prod.fst hq
    · rw [deleteOne_cons_neg _ _ _ hp]
      rw [List.find?_cons_of_neg _ (by simpa using hp)]
      exact ih hnd.2

theorem find?_append_fresh (docs : Docs) (k : Nat) (d : Doc)
    (h : docs.any (fun p => p.1 == k) = false) :
    (docs ++ [(k, d)]).find? (fun p => p.1 == k) = some (k, d) := by
  induction docs with
  | nil => simp
  | cons p rest ih =>
    simp only [List.any_cons, Bool.or_eq_false_iff] at h
    simp only [List.cons_append]
    rw [List.find?_cons_of_neg _ (by simp [h.1])]
    exact ih h.2

/-! Helper lemmas for the ObjectId hex round trip. -/

theorem hexVal_hexChar : ∀ d : Nat, d < 16 → hexVal (hexChar d) = d := by decide

theorem isHexDigitChar_hexChar : ∀ d : Nat, d < 16 → isHexDigitChar (hexChar d) = true := by
  decide

theorem length_hexDigitsLE (w n : Nat) : (hexDigitsLE w n).length = w := by
  induction w generalizing n with
  | zero => rfl
  | succ w ih => simp [hexDigitsLE, ih]

theorem mem_hexDigitsLE_lt (w n d : Nat) (h : d ∈ hexDigitsLE w n) : d < 16 := by
  induction w generalizing n with
  | zero => simp [hexDigitsLE] at h
  | succ w ih =>
    simp only [hexDigitsLE, List.mem_cons] at h
    rcases h with h | h
    · subst h; exact Nat.mod_lt _ (by norm_num)
    · exact ih _ h

theorem valLE_hexDigitsLE (w n : Nat) : valLE (hexDigitsLE w n) = n % 16 ^ w := by
  induction w generalizing n with
  | zero => simp [hexDigitsLE, valLE, Nat.mod_one]
  | succ w ih =>
    have hP : 0 < 16 ^ w := Nat.pos_pow_of_pos _ (by norm_num)
    have hr : n % 16 < 16 := Nat.mod_lt _ (by norm_num)
    have hs : n / 16 % 16 ^ w < 16 ^ w := Nat.mod_lt _ hP
    have h1 := Nat.div_add_mod n 16
    have h2 := Nat.div_add_mod (n / 16) (16 ^ w)
    have hn : n = 16 ^ w * 16 * (n / 16 / 16 ^ w) + (16 * (n / 16 % 16 ^ w) + n % 16) := by
      calc n = 16 * (n / 16) + n % 16 := h1.symm
        _ = 16 * (16 ^ w * (n / 16 / 16 ^ w) + n / 16 % 16 ^ w) + n % 16 := by rw [h2]
        _ = 16 ^ w * 16 * (n / 16 / 16 ^ w) + (16 * (n / 16 % 16 ^ w) + n % 16) := by ring
    have hlt : 16 * (n / 16 % 16 ^ w) + n % 16 < 16 ^ w * 16 := by omega
    simp only [hexDigitsLE, valLE, ih]
    rw [pow_succ]
    conv_rhs => rw [hn]
    rw [Nat.mul_add_mod, Nat.mod_eq_of_lt hlt]
    omega

theorem parseOid_oidToString (n : Nat) (h : n < 16 ^ 24) :
    parseOid (oidToString n) = some n := by
  have hdata : (oidToString n).data = ((hexDigitsLE 24 n).reverse).map hexChar := rfl
  have hlen : ((oidToString n).data.length == 24) = true := by
    simp [hdata, length_hexDigitsLE]
  have hall : (oidToString n).data.all isHexDigitChar = true := by
    rw [hdata, List.all_eq_true]
    intro c hc
    obtain ⟨d, hd, hdc⟩ := List.mem_map.mp hc
    rw [← hdc]
    exact isHexDigitChar_hexChar d (mem_hexDigitsLE_lt 24 n d (List.mem_reverse.mp hd))
  have hval : valLE (((oidToString n).data.map hexVal).reverse) = n := by
    rw [hdata, List.map_map, List.reverse_map, List.reverse_reverse]
    have : (hexDigitsLE 24 n).map (hexVal ∘ hexChar) = hexDigitsLE 24 n := by
      rw [show hexDigitsLE 24 n = (hexDigitsLE 24 n).map id from (List.map_id _).symm]
      simp only [List.map_map]
      apply List.map_congr_left
      intro d hd
      simp [hexVal_hexChar d (mem_hexDigitsLE_lt 24 n d (by simpa using hd))]
    rw [this, valLE_hexDigitsLE, Nat.mod_eq_of_lt h]
  unfold parseOid
  rw [hlen]
  simp only [hall, Bool.and_true, Bool.true_and, if_true]
  rw [hval]

/-- Projection used to state claims about `get_transaction`: `some (lookup)`
when the call returned a document, `none` when it returned `None` or raised. -/
def getField (r : Except PyExc (Option Doc)) (key : String) :
    Option (Option BVal) :=
  match r with
  | .ok (some t) => some (t.lookup key)
  | _ => none


/-! Additional helper lemmas used by the claim theorems. -/

theorem popKey_eq_self (d : Doc) (k : String) (h : ∀ p ∈ d, p.1 ≠ k) :
    popKey d k = d := by
  unfold popKey
  rw [List.filter_eq_self]
  intro p hp
  simpa using h p hp

theorem sanitize_idem (fields : Doc) :
    popKey (popKey (popKey (popKey fields "_id") "user_id") "_id") "user_id"
      = popKey (popKey fields "_id") "user_id" := by
  have h1 : popKey (popKey (popKey fields "_id") "user_id") "_id"
      = popKey (popKey fields "_id") "user_id" := by
    apply popKey_eq_self
    intro p hp
    exact (mem_popKey _ _ _ (mem_popKey _ _ _ hp).1).2
  rw [h1]
  apply popKey_eq_self
  intro p hp
  exact (mem_popKey _ _ _ hp).2

theorem sanitized_keys (fields : Doc) (now : Nat) (p : String × BVal)
    (hp : p ∈ add_timestamps (popKey (popKey fields "_id") "user_id") true now) :
    p.1 ≠ "user_id" ∧ p.1 ≠ "_id" := by
  unfold add_timestamps at hp
  rw [if_pos rfl] at hp
  rcases mem_setField _ _ _ _ hp with h | h
  · have h1 : p.1 = "updated_at" := by rw [h]
    rw [h1]
    exact ⟨by decide, by decide⟩
  · exact ⟨(mem_popKey _ _ _ h.1).2, (mem_popKey _ _ _ (mem_popKey _ _ _ h.1).1).2⟩

theorem forall₂_replaceFirst_found (docs : Docs) (k : Nat) (d2 : Doc)
    (R : Nat × Doc → Nat × Doc → Prop)
    (hrefl : ∀ p, R p p)
    (h : ∀ q, docs.find? (fun p => p.1 == k) = some q → R (q.1, d2) q) :
    List.Forall₂ R (replaceFirst docs k d2) docs := by
  induction docs with
  | nil => exact List.Forall₂.nil
  | cons p rest ih =>
    by_cases hp : p.1 = k
    · rw [replaceFirst_cons_pos _ _ _ _ hp]
      refine List.Forall₂.cons ?_ (List.forall₂_same.mpr fun x _ => hrefl x)
      exact h p (List.find?_cons_of_pos _ (by simpa using hp))
    · rw [replaceFirst_cons_neg _ _ _ _ hp]
      refine List.Forall₂.cons (hrefl p) (ih ?_)
      intro q hq
      refine h q ?_
      rw [List.find?_cons_of_neg _ (by simpa using hp)]
      exact hq

/-! The claims. -/

/-- C2: `update_transaction` never modifies a stored transaction's identifier
or owner identifier, even when the field map contains the `"_id"` or
`"user_id"` keys: every stored pair keeps its id and its `user_id` field, and
the call behaves exactly as the call on the map with those keys pre-stripped —
they are silently dropped, not rejected with an error. -/
theorem C2_update_never_touches_ids (docs : Docs) (fault : Bool) (now : Nat)
    (tid : String) (fields : Doc) :
    List.Forall₂
      (fun q p => q.1 = p.1 ∧ q.2.lookup "user_id" = p.2.lookup "user_id")
      (update_transaction docs fault now tid fields).2 docs ∧
    update_transaction docs fault now tid fields
      = update_transaction docs fault now tid
          (popKey (popKey fields "_id") "user_id") := by
  constructor
  · unfold update_transaction
    cases hp : parseOid tid with
    | none => exact List.forall₂_same.mpr fun x _ => ⟨rfl, rfl⟩
    | some k =>
      cases fault with
      | true => exact List.forall₂_same.mpr fun x _ => ⟨rfl, rfl⟩
      | false =>
        simp only [Bool.false_eq_true, if_false]
        unfold updateOne
        cases hf : docs.find? (fun p => p.1 == k) with
        | none => exact List.forall₂_same.mpr fun x _ => ⟨rfl, rfl⟩
        | some q =>
          apply forall₂_replaceFirst_found
          · exact fun p => ⟨rfl, rfl⟩
          · intro q' hq'
            rw [hf] at hq'
            cases hq'
            refine ⟨rfl, ?_⟩
            apply lookup_applySet_not_mem
            intro p hp2
            exact (sanitized_keys fields now p hp2).1
  · unfold update_transaction
    rw [sanitize_idem]

/-- C4 (code bug): on an id that does not parse as an ObjectId,
`get_transaction` does not return the `None` sentinel: `ObjectId(...)` raises
`bson.errors.InvalidId`, which is not a `PyMongoError`, so the handler does not
catch it and the error propagates to the caller — contradicting the claim and
the method docstring ("None if not found or error"). -/
theorem C4_invalid_id_uncaught (docs : Docs) (fault : Bool) :
    get_transaction docs fault "not-a-valid-object-id" = .error .invalidId := rfl

/-- C5: a simulated store failure (a `PyMongoError` raised at the store call,
`fault = true`) is caught at every method boundary and turned into the
documented sentinel: `None` for get and create, the empty list for
list-by-owner, `False` for every boolean operation; the store state is left
unchanged and no error propagates. -/
theorem C5_store_failures_yield_sentinels (docs : Docs) (k u oidn : Nat)
    (tid uid : String) (now : Nat) (fields : Doc) (vlookup : BVal → Option Doc)
    (nm bp v col dt cd : String) (pac sac : Option String)
    (hparse : parseOid tid = some k) (huid : parseOid uid = some u) :
    get_transaction docs true tid = .ok none ∧
    create_transaction docs true oidn now uid nm bp pac sac = (.ok none, docs) ∧
    add_new_column_datatype docs true now tid col dt = (.ok false, docs) ∧
    update_transaction docs true now tid fields = (.ok false, docs) ∧
    delete_transaction docs true tid = (.ok false, docs) ∧
    get_transactions_by_user docs true vlookup uid = .ok [] ∧
    set_base_file docs true now tid v = (.ok false, docs) ∧
    set_preprocessed_file docs true now tid v = (.ok false, docs) ∧
    change_transaction_name docs true now tid nm = (.ok false, docs) ∧
    update_cutoff_date docs true now tid cd = (.ok false, docs) ∧
    add_rule_application_root_version docs true tid v = (.ok false, docs) ∧
    remove_rule_application_root_version docs true tid v = (.ok false, docs) := by
  refine ⟨?_, ?_, ?_, ?_, ?_, ?_, ?_, ?_, ?_, ?_, ?_, ?_⟩
  · unfold get_transaction; rw [hparse]; rfl
  · unfold create_transaction; rw [huid]; rfl
  · unfold add_new_column_datatype; rw [hparse]; rfl
  · unfold update_transaction; rw [hparse]; rfl
  · unfold delete_transaction; rw [hparse]; rfl
  · unfold get_transactions_by_user; rw [huid]; rfl
  · unfold set_base_file; rw [hparse]; rfl
  · unfold set_preprocessed_file; rw [hparse]; rfl
  · unfold change_transaction_name; rw [hparse]; rfl
  · unfold update_cutoff_date; rw [hparse]; rfl
  · unfold add_rule_application_root_version; rw [hparse]; rfl
  · unfold remove_rule_application_root_version; rw [hparse]; rfl

/-- Witness for C5 at a concrete store, concrete ids and concrete arguments. -/
theorem C5_store_failures_yield_sentinels_witness :
    get_transaction [(1, [("user_id", BVal.oid 2)])] true
        "000000000000000000000001" = .ok none ∧
    create_transaction [(1, [("user_id", BVal.oid 2)])] true 3 7
        "000000000000000000000002" "n" "p" none none
      = (.ok none, [(1, [("user_id", BVal.oid 2)])]) ∧
    add_new_column_datatype [(1, [("user_id", BVal.oid 2)])] true 7
        "000000000000000000000001" "c" "int64"
      = (.ok false, [(1, [("user_id", BVal.oid 2)])]) ∧
    update_transaction [(1, [("user_id", BVal.oid 2)])] true 7
        "000000000000000000000001" [("name", BVal.str "x")]
      = (.ok false, [(1, [("user_id", BVal.oid 2)])]) ∧
    delete_transaction [(1, [("user_id", BVal.oid 2)])] true
        "000000000000000000000001"
      = (.ok false, [(1, [("user_id", BVal.oid 2)])]) ∧
    get_transactions_by_user [(1, [("user_id", BVal.oid 2)])] true
        (fun _ => none) "000000000000000000000002" = .ok [] ∧
    set_base_file [(1, [("user_id", BVal.oid 2)])] true 7
        "000000000000000000000001" "v1"
      = (.ok false, [(1, [("user_id", BVal.oid 2)])]) ∧
    set_preprocessed_file [(1, [("user_id", BVal.oid 2)])] true 7
        "000000000000000000000001" "v1"
      = (.ok false, [(1, [("user_id", BVal.oid 2)])]) ∧
    change_transaction_name [(1, [("user_id", BVal.oid 2)])] true 7
        "000000000000000000000001" "m"
      = (.ok false, [(1, [("user_id", BVal.oid 2)])]) ∧
    update_cutoff_date [(1, [("user_id", BVal.oid 2)])] true 7
        "000000000000000000000001" "01/01/2024"
      = (.ok false, [(1, [("user_id", BVal.oid 2)])]) ∧
    add_rule_application_root_version [(1, [("user_id", BVal.oid 2)])] true
        "000000000000000000000001" "v1"
      = (.ok false, [(1, [("user_id", BVal.oid 2)])]) ∧
    remove_rule_application_root_version [(1, [("user_id", BVal.oid 2)])] true
        "000000000000000000000001" "v1"
      = (.ok false, [(1, [("user_id", BVal.oid 2)])]) :=
  C5_store_failures_yield_sentinels [(1, [("user_id", BVal.oid 2)])] 1 2 3
    "000000000000000000000001" "000000000000000000000002" 7
    [("name", BVal.str "x")] (fun _ => none) "n" "p" "v1" "c" "int64"
    "01/01/2024" none none (by decide) (by decide)


/-- C7: `remove_rule_application_root_version` removes every occurrence of the
version id from the `rule_application_root_versions` list (Mongo `$pull`),
leaving every other entry in its original order and every other field of the
document untouched: the stored document becomes exactly the old document with
that single field set to the filtered list. -/
theorem C7_remove_root_version_removes_all_occurrences (docs : Docs) (k : Nat)
    (tid v : String) (d0 : Doc) (l : List String)
    (hparse : parseOid tid = some k)
    (hfind : docs.find? (fun p => p.1 == k) = some (k, d0))
    (hl : d0.lookup "rule_application_root_versions" = some (.strArr l)) :
    storedDoc (remove_rule_application_root_version docs false tid v).2 k
      = some (setField d0 "rule_application_root_versions"
          (.strArr (l.filter (fun x => !(x == v))))) ∧
    (setField d0 "rule_application_root_versions"
        (.strArr (l.filter (fun x => !(x == v))))).lookup
        "rule_application_root_versions"
      = some (.strArr (l.filter (fun x => !(x == v)))) := by
  constructor
  · unfold storedDoc
    simp only [remove_rule_application_root_version, hparse, updateOne, hfind, hl,
        Bool.false_eq_true, if_false]
    rw [find?_replaceFirst_self docs k _ (k, d0) hfind]
    rfl
  · exact lookup_setField_self _ _ _

/-- Witness for C7: a store holding one transaction whose root-version list is
`["v1", "a", "v1"]`; removing `"v1"` leaves exactly `["a"]`. -/
theorem C7_remove_root_version_removes_all_occurrences_witness :
    storedDoc
      (remove_rule_application_root_version
        [(1, [("rule_application_root_versions", BVal.strArr ["v1", "a", "v1"])])]
        false "000000000000000000000001" "v1").2 1
      = some (setField [("rule_application_root_versions", BVal.strArr ["v1", "a", "v1"])]
          "rule_application_root_versions"
          (.strArr (["v1", "a", "v1"].filter (fun x => !(x == "v1"))))) ∧
    (setField [("rule_application_root_versions", BVal.strArr ["v1", "a", "v1"])]
        "rule_application_root_versions"
        (.strArr (["v1", "a", "v1"].filter (fun x => !(x == "v1"))))).lookup
        "rule_application_root_versions"
      = some (.strArr (["v1", "a", "v1"].filter (fun x => !(x == "v1")))) :=
  C7_remove_root_version_removes_all_occurrences
    [(1, [("rule_application_root_versions", BVal.strArr ["v1", "a", "v1"])])]
    1 "000000000000000000000001" "v1"
    [("rule_application_root_versions", BVal.strArr ["v1", "a", "v1"])]
    ["v1", "a", "v1"] (by decide) (by decide) (by decide)

/-- C8: `add_rule_application_root_version` appends the version id to the end
of `rule_application_root_versions` without deduplication (Mongo `$push`): on a
transaction without the field (as freshly created ones are) one call creates
the one-element list `[v]`, and a second call with the same id appends it
again, yielding `[v, v]`. -/
theorem C8_add_root_version_appends_without_dedup (docs : Docs) (k : Nat)
    (tid v : String) (d0 : Doc)
    (hparse : parseOid tid = some k)
    (hfind : docs.find? (fun p => p.1 == k) = some (k, d0))
    (hl0 : d0.lookup "rule_application_root_versions" = none) :
    storedDoc (add_rule_application_root_version docs false tid v).2 k
      = some (setField d0 "rule_application_root_versions" (.strArr [v])) ∧
    (setField d0 "rule_application_root_versions" (.strArr [v])).lookup
        "rule_application_root_versions" = some (.strArr [v]) ∧
    storedDoc
      (add_rule_application_root_version
        (add_rule_application_root_version docs false tid v).2 false tid v).2 k
      = some (setField (setField d0 "rule_application_root_versions" (.strArr [v]))
          "rule_application_root_versions" (.strArr ([v] ++ [v]))) ∧
    (setField (setField d0 "rule_application_root_versions" (.strArr [v]))
        "rule_application_root_versions" (.strArr ([v] ++ [v]))).lookup
        "rule_application_root_versions" = some (.strArr [v, v]) := by
  have hstate1 : (add_rule_application_root_version docs false tid v).2
      = replaceFirst docs k (setField d0 "rule_application_root_versions" (.strArr [v])) := by
    simp only [add_rule_application_root_version, hparse, updateOne, hfind, hl0,
        Bool.false_eq_true, if_false]
  have hfind1 : (replaceFirst docs k
        (setField d0 "rule_application_root_versions" (.strArr [v]))).find?
        (fun p => p.1 == k)
      = some (k, setField d0 "rule_application_root_versions" (.strArr [v])) := by
    simpa using find?_replaceFirst_self docs k _ (k, d0) hfind
  have hl1 : (setField d0 "rule_application_root_versions" (.strArr [v])).lookup
      "rule_application_root_versions" = some (.strArr [v]) :=
    lookup_setField_self _ _ _
  refine ⟨?_, hl1, ?_, ?_⟩
  · unfold storedDoc
    rw [hstate1, hfind1]
    rfl
  · unfold storedDoc
    rw [hstate1]
    simp only [add_rule_application_root_version, hparse, updateOne, hfind1, hl1,
        Bool.false_eq_true, if_false]
    rw [find?_replaceFirst_self _ k _ _ hfind1]
    rfl
  · exact lookup_setField_self _ _ _

/-- Witness for C8: a store with one transaction (no root-version field yet);
one add makes the list `["v1"]`, a second add makes it `["v1", "v1"]`. -/
theorem C8_add_root_version_appends_without_dedup_witness :
    storedDoc
      (add_rule_application_root_version [(1, [("name", BVal.str "t")])] false
        "000000000000000000000001" "v1").2 1
      = some (setField [("name", BVal.str "t")]
          "rule_application_root_versions" (.strArr ["v1"])) ∧
    (setField [("name", BVal.str "t")] "rule_application_root_versions"
        (.strArr ["v1"])).lookup "rule_application_root_versions"
      = some (.strArr ["v1"]) ∧
    storedDoc
      (add_rule_application_root_version
        (add_rule_application_root_version [(1, [("name", BVal.str "t")])] false
          "000000000000000000000001" "v1").2 false
        "000000000000000000000001" "v1").2 1
      = some (setField
          (setField [("name", BVal.str "t")] "rule_application_root_versions"
            (.strArr ["v1"]))
          "rule_application_root_versions" (.strArr (["v1"] ++ ["v1"]))) ∧
    (setField
        (setField [("name", BVal.str "t")] "rule_application_root_versions"
          (.strArr ["v1"]))
        "rule_application_root_versions" (.strArr (["v1"] ++ ["v1"]))).lookup
        "rule_application_root_versions" = some (.strArr ["v1", "v1"]) :=
  C8_add_root_version_appends_without_dedup [(1, [("name", BVal.str "t")])] 1
    "000000000000000000000001" "v1" [("name", BVal.str "t")]
    (by decide) (by decide) (by decide)

/-- C9: deleting a transaction and then getting the same id returns the
"not found" sentinel `None`, and the delete call returns `True` exactly when a
document with that id was actually stored (and hence removed). -/
theorem C9_delete_then_get_not_found (docs : Docs) (k : Nat) (tid : String)
    (hparse : parseOid tid = some k)
    (hnd : (docs.map Prod.fst).Nodup) :
    get_transaction (delete_transaction docs false tid).2 false tid = .ok none ∧
    ((delete_transaction docs false tid).1 = .ok true ↔ k ∈ docs.map Prod.fst) := by
  have hstate : (delete_transaction docs false tid).2 = (deleteOne docs k).1 := by
    simp only [delete_transaction, hparse, Bool.false_eq_true, if_false]
  have hflag : (delete_transaction docs false tid).1 = .ok (deleteOne docs k).2 := by
    simp only [delete_transaction, hparse, Bool.false_eq_true, if_false]
  constructor
  · rw [hstate]
    simp only [get_transaction, hparse, findOne, find?_deleteOne_self docs k hnd,
        Bool.false_eq_true, if_false]
    rfl
  · rw [hflag]
    constructor
    · intro h
      have h2 : (deleteOne docs k).2 = true := by
        injection h
      exact (deleteOne_flag docs k).mp h2
    · intro h
      rw [(deleteOne_flag docs k).mpr h]

/-- Witness for C9 at a concrete one-document store. -/
theorem C9_delete_then_get_not_found_witness :
    get_transaction
      (delete_transaction [(1, [("user_id", BVal.oid 2)])] false
        "000000000000000000000001").2 false "000000000000000000000001" = .ok none ∧
    ((delete_transaction [(1, [("user_id", BVal.oid 2)])] false
        "000000000000000000000001").1 = .ok true
      ↔ 1 ∈ [(1, [("user_id", BVal.oid 2)])].map Prod.fst) :=
  C9_delete_then_get_not_found [(1, [("user_id", BVal.oid 2)])] 1
    "000000000000000000000001" (by decide) (by decide)


theorem lookup_addAssetClasses_ne (d : Doc) (pac sac : Option String) (key : String)
    (h1 : key ≠ "primary_asset_class") (h2 : key ≠ "secondary_asset_class") :
    (addAssetClasses d pac sac).lookup key = d.lookup key := by
  cases pac <;> cases sac <;>
    simp [addAssetClasses, lookup_setField_ne _ _ _ _ h1, lookup_setField_ne _ _ _ _ h2]

/-- C1 counterexample: create() on an empty store followed by get() on the
returned identifier yields a record in which the rule-application root-version
list is NOT present, while the claim asserts the ordered list is present
(`getField ... = some none`: the get succeeded and the field is absent). -/
theorem C1_counterexample_root_version_list_absent :
    (create_transaction [] false 1 0 "000000000000000000000002" "n" "p" none none).1
      = .ok (some "000000000000000000000001") ∧
    getField
      (get_transaction
        (create_transaction [] false 1 0 "000000000000000000000002" "n" "p" none none).2
        false "000000000000000000000001")
      "rule_application_root_versions" = some none := by decide

/-- C1 (amended): for every parsable owner id and any name and base path,
create() followed by get() on the returned identifier succeeds and yields a
record whose defaults match section 3 — `version_number = 0`,
`are_all_steps_complete = false`, an empty new-column datatype map, all
file-reference fields and the cutoff date null — except that the
rule-application root-version list is NOT present: `create_transaction` never
initialises `rule_application_root_versions`; the field first appears when a
root version is added. -/
theorem C1_create_then_get_defaults (docs : Docs) (oid now u : Nat)
    (uid nm bp : String) (pac sac : Option String)
    (hu : parseOid uid = some u)
    (hoid : oid < 16 ^ 24)
    (hfresh : docs.any (fun p => p.1 == oid) = false) :
    (create_transaction docs false oid now uid nm bp pac sac).1
      = .ok (some (oidToString oid)) ∧
    getField (get_transaction (create_transaction docs false oid now uid nm bp pac sac).2
        false (oidToString oid)) "version_number"
      = some (some (.int 0)) ∧
    getField (get_transaction (create_transaction docs false oid now uid nm bp pac sac).2
        false (oidToString oid)) "are_all_steps_complete"
      = some (some (.bool false)) ∧
    getField (get_transaction (create_transaction docs false oid now uid nm bp pac sac).2
        false (oidToString oid)) "new_added_columns_datatype"
      = some (some (.strMap [])) ∧
    getField (get_transaction (create_transaction docs false oid now uid nm bp pac sac).2
        false (oidToString oid)) "base_file"
      = some (some .null) ∧
    getField (get_transaction (create_transaction docs false oid now uid nm bp pac sac).2
        false (oidToString oid)) "preprocessed_file"
      = some (some .null) ∧
    getField (get_transaction (create_transaction docs false oid now uid nm bp pac sac).2
        false (oidToString oid)) "column_rename_file"
      = some (some .null) ∧
    getField (get_transaction (create_transaction docs false oid now uid nm bp pac sac).2
        false (oidToString oid)) "temp_changing_datatype_of_column"
      = some (some .null) ∧
    getField (get_transaction (create_transaction docs false oid now uid nm bp pac sac).2
        false (oidToString oid)) "changed_datatype_of_column"
      = some (some .null) ∧
    getField (get_transaction (create_transaction docs false oid now uid nm bp pac sac).2
        false (oidToString oid)) "temp_rbi_rules_applied"
      = some (some .null) ∧
    getField (get_transaction (create_transaction docs false oid now uid nm bp pac sac).2
        false (oidToString oid)) "final_rbi_rules_applied"
      = some (some .null) ∧
    getField (get_transaction (create_transaction docs false oid now uid nm bp pac sac).2
        false (oidToString oid)) "cutoff_date"
      = some (some .null) ∧
    getField (get_transaction (create_transaction docs false oid now uid nm bp pac sac).2
        false (oidToString oid)) "rule_application_root_versions"
      = some none := by
  have hcreate : create_transaction docs false oid now uid nm bp pac sac
      = (.ok (some (oidToString oid)),
         docs ++ [(oid, add_timestamps
            (addAssetClasses (transaction_data u nm bp) pac sac) false now)]) := by
    simp only [create_transaction, hu, insertOne, hfresh, Bool.false_eq_true, if_false]
  have hstate2 : (create_transaction docs false oid now uid nm bp pac sac).2
      = docs ++ [(oid, add_timestamps
          (addAssetClasses (transaction_data u nm bp) pac sac) false now)] := by
    rw [hcreate]
  have hfindone : findOne
      (docs ++ [(oid, add_timestamps
          (addAssetClasses (transaction_data u nm bp) pac sac) false now)]) oid
      = some (("_id", BVal.oid oid)
          :: add_timestamps (addAssetClasses (transaction_data u nm bp) pac sac) false now) := by
    unfold findOne
    rw [find?_append_fresh docs oid _ hfresh]
    rfl
  have hD3 : ∀ key, key ≠ "created_at" → key ≠ "primary_asset_class" →
      key ≠ "secondary_asset_class" →
      (add_timestamps (addAssetClasses (transaction_data u nm bp) pac sac) false now).lookup key
        = (transaction_data u nm bp).lookup key := by
    intro key h1 h2 h3
    unfold add_timestamps
    rw [if_neg (by simp), lookup_setField_ne _ _ _ _ h1,
        lookup_addAssetClasses_ne _ _ _ _ h2 h3]
  have hlu : (setField (("_id", BVal.oid oid)
        :: add_timestamps (addAssetClasses (transaction_data u nm bp) pac sac) false now)
        "_id" (.str (pyStr (BVal.oid oid)))).lookup "user_id" = some (.oid u) := by
    rw [lookup_setField_ne _ _ _ _ (by decide), List.lookup_cons,
        show (("user_id" : String) == "_id") = false by decide,
        hD3 "user_id" (by decide) (by decide) (by decide)]
    rfl
  have hget : get_transaction
      (docs ++ [(oid, add_timestamps
          (addAssetClasses (transaction_data u nm bp) pac sac) false now)])
      false (oidToString oid)
      = .ok (some (setField
          (setField (("_id", BVal.oid oid)
            :: add_timestamps (addAssetClasses (transaction_data u nm bp) pac sac) false now)
            "_id" (.str (pyStr (BVal.oid oid))))
          "user_id" (.str (pyStr (BVal.oid u))))) := by
    simp only [get_transaction, parseOid_oidToString oid hoid, hfindone,
      List.lookup_cons_self, hlu, Bool.false_eq_true, if_false]
  have hkey : ∀ key, key ≠ "_id" → key ≠ "user_id" → key ≠ "created_at" →
      key ≠ "primary_asset_class" → key ≠ "secondary_asset_class" →
      getField (get_transaction
        (docs ++ [(oid, add_timestamps
            (addAssetClasses (transaction_data u nm bp) pac sac) false now)])
        false (oidToString oid)) key
        = some ((transaction_data u nm bp).lookup key) := by
    intro key h1 h2 h3 h4 h5
    rw [hget]
    simp only [getField]
    rw [lookup_setField_ne _ _ _ _ h2, lookup_setField_ne _ _ _ _ h1,
        List.lookup_cons, beq_false_of_ne h1, hD3 key h3 h4 h5]
  refine ⟨?_, ?_, ?_, ?_, ?_, ?_, ?_, ?_, ?_, ?_, ?_, ?_, ?_⟩
  · rw [hcreate]
  · rw [hstate2]
    exact (hkey "version_number" (by decide) (by decide) (by decide) (by decide)
      (by decide)).trans rfl
  · rw [hstate2]
    exact (hkey "are_all_steps_complete" (by decide) (by decide) (by decide) (by decide)
      (by decide)).trans rfl
  · rw [hstate2]
    exact (hkey "new_added_columns_datatype" (by decide) (by decide) (by decide) (by decide)
      (by decide)).trans rfl
  · rw [hstate2]
    exact (hkey "base_file" (by decide) (by decide) (by decide) (by decide)
      (by decide)).trans rfl
  · rw [hstate2]
    exact (hkey "preprocessed_file" (by decide) (by decide) (by decide) (by decide)
      (by decide)).trans rfl
  · rw [hstate2]
    exact (hkey "column_rename_file" (by decide) (by decide) (by decide) (by decide)
      (by decide)).trans rfl
  · rw [hstate2]
    exact (hkey "temp_changing_datatype_of_column" (by decide) (by decide) (by decide) (by decide)
      (by decide)).trans rfl
  · rw [hstate2]
    exact (hkey "changed_datatype_of_column" (by decide) (by decide) (by decide) (by decide)
      (by decide)).trans rfl
  · rw [hstate2]
    exact (hkey "temp_rbi_rules_applied" (by decide) (by decide) (by decide) (by decide)
      (by decide)).trans rfl
  · rw [hstate2]
    exact (hkey "final_rbi_rules_applied" (by decide) (by decide) (by decide) (by decide)
      (by decide)).trans rfl
  · rw [hstate2]
    exact (hkey "cutoff_date" (by decide) (by decide) (by decide) (by decide)
      (by decide)).trans rfl
  · rw [hstate2]
    exact (hkey "rule_application_root_versions" (by decide) (by decide) (by decide) (by decide)
      (by decide)).trans rfl

/-- Witness for C1 (amended): the create-then-get run on an empty store with
concrete inputs. -/
theorem C1_create_then_get_defaults_witness :
    (create_transaction [] false 1 0 "000000000000000000000002" "n" "p" none none).1
      = .ok (some (oidToString 1)) ∧
    getField (get_transaction (create_transaction [] false 1 0 "000000000000000000000002" "n" "p" none none).2
        false (oidToString 1)) "version_number"
      = some (some (.int 0)) ∧
    getField (get_transaction (create_transaction [] false 1 0 "000000000000000000000002" "n" "p" none none).2
        false (oidToString 1)) "are_all_steps_complete"
      = some (some (.bool false)) ∧
    getField (get_transaction (create_transaction [] false 1 0 "000000000000000000000002" "n" "p" none none).2
        false (oidToString 1)) "new_added_columns_datatype"
      = some (some (.strMap [])) ∧
    getField (get_transaction (create_transaction [] false 1 0 "000000000000000000000002" "n" "p" none none).2
        false (oidToString 1)) "base_file"
      = some (some .null) ∧
    getField (get_transaction (create_transaction [] false 1 0 "000000000000000000000002" "n" "p" none none).2
        false (oidToString 1)) "preprocessed_file"
      = some (some .null) ∧
    getField (get_transaction (create_transaction [] false 1 0 "000000000000000000000002" "n" "p" none none).2
        false (oidToString 1)) "column_rename_file"
      = some (some .null) ∧
    getField (get_transaction (create_transaction [] false 1 0 "000000000000000000000002" "n" "p" none none).2
        false (oidToString 1)) "temp_changing_datatype_of_column"
      = some (some .null) ∧
    getField (get_transaction (create_transaction [] false 1 0 "000000000000000000000002" "n" "p" none none).2
        false (oidToString 1)) "changed_datatype_of_column"
      = some (some .null) ∧
    getField (get_transaction (create_transaction [] false 1 0 "000000000000000000000002" "n" "p" none none).2
        false (oidToString 1)) "temp_rbi_rules_applied"
      = some (some .null) ∧
    getField (get_transaction (create_transaction [] false 1 0 "000000000000000000000002" "n" "p" none none).2
        false (oidToString 1)) "final_rbi_rules_applied"
      = some (some .null) ∧
    getField (get_transaction (create_transaction [] false 1 0 "000000000000000000000002" "n" "p" none none).2
        false (oidToString 1)) "cutoff_date"
      = some (some .null) ∧
    getField (get_transaction (create_transaction [] false 1 0 "000000000000000000000002" "n" "p" none none).2
        false (oidToString 1)) "rule_application_root_versions"
      = some none :=
  C1_create_then_get_defaults [] 1 0 2 "000000000000000000000002" "n" "p"
    none none (by decide) (by norm_num) (by decide)


/-- C3 counterexample: a successful `add_rule_application_root_version` (a
mutating operation, result `True`) leaves `updated_at` exactly as it was (the
method sends no timestamp at all), refuting "every successful mutating
operation refreshes `updated_at`". -/
theorem C3_counterexample_add_root_version_stale_timestamp :
    (add_rule_application_root_version
      [(1, [("updated_at", BVal.time 5), ("rule_application_root_versions", BVal.strArr [])])]
      false "000000000000000000000001" "v1").1 = .ok true ∧
    (storedDoc (add_rule_application_root_version
        [(1, [("updated_at", BVal.time 5), ("rule_application_root_versions", BVal.strArr [])])]
        false "000000000000000000000001" "v1").2 1).map
      (fun d => d.lookup "updated_at") = some (some (.time 5)) := by decide

/-- C3 (amended): the generic update, adding a column datatype, setting the
base or preprocessed file, renaming, and updating the cutoff date each refresh
`updated_at` to the call's wall-clock time on success and leave `created_at`
unchanged (for the generic update, provided the caller's map does not itself
contain a `created_at` entry); adding or removing a rule-application
root version leaves BOTH timestamps untouched; and `created_at` is set at
creation. -/
theorem C3_updated_at_refresh_except_root_versions (docs : Docs) (k : Nat)
    (tid : String) (now : Nat) (d0 : Doc) (fields : Doc)
    (v w nm cd col dt : String) (oidn now2 u : Nat) (uid nm2 bp : String)
    (pac sac : Option String)
    (hparse : parseOid tid = some k)
    (hfind : docs.find? (fun p => p.1 == k) = some (k, d0))
    (hnd : (fields.map Prod.fst).Nodup)
    (hca : ∀ p ∈ fields, p.1 ≠ "created_at")
    (huid : parseOid uid = some u)
    (hfresh : docs.any (fun p => p.1 == oidn) = false) :
    ((update_transaction docs false now tid fields).1 = .ok true →
      (storedDoc (update_transaction docs false now tid fields).2 k).map
        (fun d => (d.lookup "updated_at", d.lookup "created_at"))
        = some (some (.time now), d0.lookup "created_at")) ∧
    ((add_new_column_datatype docs false now tid col dt).1 = .ok true →
      (storedDoc (add_new_column_datatype docs false now tid col dt).2 k).map
        (fun d => (d.lookup "updated_at", d.lookup "created_at"))
        = some (some (.time now), d0.lookup "created_at")) ∧
    ((set_base_file docs false now tid v).1 = .ok true →
      (storedDoc (set_base_file docs false now tid v).2 k).map
        (fun d => (d.lookup "updated_at", d.lookup "created_at"))
        = some (some (.time now), d0.lookup "created_at")) ∧
    ((set_preprocessed_file docs false now tid w).1 = .ok true →
      (storedDoc (set_preprocessed_file docs false now tid w).2 k).map
        (fun d => (d.lookup "updated_at", d.lookup "created_at"))
        = some (some (.time now), d0.lookup "created_at")) ∧
    ((change_transaction_name docs false now tid nm).1 = .ok true →
      (storedDoc (change_transaction_name docs false now tid nm).2 k).map
        (fun d => (d.lookup "updated_at", d.lookup "created_at"))
        = some (some (.time now), d0.lookup "created_at")) ∧
    ((update_cutoff_date docs false now tid cd).1 = .ok true →
      (storedDoc (update_cutoff_date docs false now tid cd).2 k).map
        (fun d => (d.lookup "updated_at", d.lookup "created_at"))
        = some (some (.time now), d0.lookup "created_at")) ∧
    ((storedDoc (add_rule_application_root_version docs false tid v).2 k).map
        (fun d => (d.lookup "updated_at", d.lookup "created_at"))
        = some (d0.lookup "updated_at", d0.lookup "created_at")) ∧
    ((storedDoc (remove_rule_application_root_version docs false tid v).2 k).map
        (fun d => (d.lookup "updated_at", d.lookup "created_at"))
        = some (d0.lookup "updated_at", d0.lookup "created_at")) ∧
    ((storedDoc (create_transaction docs false oidn now2 uid nm2 bp pac sac).2 oidn).map
        (fun d => d.lookup "created_at") = some (some (.time now2))) := by
  have hself : ∀ (d : Doc) (f : String) (vv : BVal),
      (setField (setField d f vv) "updated_at" (.time now)).lookup "updated_at"
        = some (.time now) := fun d f vv => lookup_setField_self _ _ _
  refine ⟨?_, ?_, ?_, ?_, ?_, ?_, ?_, ?_, ?_⟩
  · -- generic update
    intro _
    simp only [update_transaction, hparse, updateOne, hfind, Bool.false_eq_true,
      if_false, storedDoc]
    rw [find?_replaceFirst_self docs k _ (k, d0) hfind]
    simp only [Option.map_some']
    have hf2nd : ((add_timestamps (popKey (popKey fields "_id") "user_id") true now).map
        Prod.fst).Nodup := by
      unfold add_timestamps
      rw [if_pos rfl]
      exact nodup_keys_setField _ _ _ (nodup_keys_popKey _ _ (nodup_keys_popKey _ _ hnd))
    have hf2mem : ("updated_at", BVal.time now)
        ∈ add_timestamps (popKey (popKey fields "_id") "user_id") true now := by
      unfold add_timestamps
      rw [if_pos rfl]
      exact mem_setField_self _ _ _
    rw [lookup_applySet_nodup_mem _ _ _ hf2nd hf2mem]
    rw [lookup_applySet_not_mem _ _ _ (fun p hp => ?_)]
    rcases mem_setField _ _ _ _ (by simpa [add_timestamps] using hp) with h | h
    · have : p.1 = "updated_at" := by rw [h]
      rw [this]; decide
    · exact hca p (mem_popKey _ _ _ (mem_popKey _ _ _ h.1).1).1
  · -- add_new_column_datatype
    intro hok
    cases hm : d0.lookup "new_added_columns_datatype" with
    | none =>
      simp only [add_new_column_datatype, hparse, updateOne, hfind, hm,
        Bool.false_eq_true, if_false, storedDoc]
      rw [find?_replaceFirst_self docs k _ (k, d0) hfind]
      simp only [Option.map_some']
      rw [hself, lookup_setField_ne _ _ _ _ (by decide),
          lookup_setField_ne _ _ _ _ (by decide)]
    | some bv =>
      cases bv with
      | strMap m =>
        simp only [add_new_column_datatype, hparse, updateOne, hfind, hm,
          Bool.false_eq_true, if_false, storedDoc]
        rw [find?_replaceFirst_self docs k _ (k, d0) hfind]
        simp only [Option.map_some']
        rw [hself, lookup_setField_ne _ _ _ _ (by decide),
            lookup_setField_ne _ _ _ _ (by decide)]
      | null =>
        simp only [add_new_column_datatype, hparse, updateOne, hfind, hm,
          Bool.false_eq_true, if_false] at hok
        simp at hok
      | bool b =>
        simp only [add_new_column_datatype, hparse, updateOne, hfind, hm,
          Bool.false_eq_true, if_false] at hok
        simp at hok
      | int n =>
        simp only [add_new_column_datatype, hparse, updateOne, hfind, hm,
          Bool.false_eq_true, if_false] at hok
        simp at hok
      | str s2 =>
        simp only [add_new_column_datatype, hparse, updateOne, hfind, hm,
          Bool.false_eq_true, if_false] at hok
        simp at hok
      | oid n =>
        simp only [add_new_column_datatype, hparse, updateOne, hfind, hm,
          Bool.false_eq_true, if_false] at hok
        simp at hok
      | time t =>
        simp only [add_new_column_datatype, hparse, updateOne, hfind, hm,
          Bool.false_eq_true, if_false] at hok
        simp at hok
      | strArr l2 =>
        simp only [add_new_column_datatype, hparse, updateOne, hfind, hm,
          Bool.false_eq_true, if_false] at hok
        simp at hok
  · -- set_base_file
    intro _
    simp only [set_base_file, hparse, updateOne, hfind, Bool.false_eq_true,
      if_false, storedDoc]
    rw [find?_replaceFirst_self docs k _ (k, d0) hfind]
    simp only [Option.map_some']
    have happ : applySet [("base_file", BVal.str v), ("updated_at", BVal.time now)] d0
        = setField (setField d0 "base_file" (BVal.str v)) "updated_at" (BVal.time now) := rfl
    rw [happ, hself, lookup_setField_ne _ _ _ _ (by decide),
        lookup_setField_ne _ _ _ _ (by decide)]
  · -- set_preprocessed_file
    intro _
    simp only [set_preprocessed_file, hparse, updateOne, hfind, Bool.false_eq_true,
      if_false, storedDoc]
    rw [find?_replaceFirst_self docs k _ (k, d0) hfind]
    simp only [Option.map_some']
    have happ : applySet [("preprocessed_file", BVal.str w), ("updated_at", BVal.time now)] d0
        = setField (setField d0 "preprocessed_file" (BVal.str w)) "updated_at" (BVal.time now) := rfl
    rw [happ, hself, lookup_setField_ne _ _ _ _ (by decide),
        lookup_setField_ne _ _ _ _ (by decide)]
  · -- change_transaction_name
    intro _
    simp only [change_transaction_name, hparse, updateOne, hfind, Bool.false_eq_true,
      if_false, storedDoc]
    rw [find?_replaceFirst_self docs k _ (k, d0) hfind]
    simp only [Option.map_some']
    have happ : applySet (add_timestamps [("name", BVal.str nm)] true now) d0
        = setField (setField d0 "name" (BVal.str nm)) "updated_at" (BVal.time now) := rfl
    rw [happ, hself, lookup_setField_ne _ _ _ _ (by decide),
        lookup_setField_ne _ _ _ _ (by decide)]
  · -- update_cutoff_date
    intro _
    simp only [update_cutoff_date, hparse, updateOne, hfind, Bool.false_eq_true,
      if_false, storedDoc]
    rw [find?_replaceFirst_self docs k _ (k, d0) hfind]
    simp only [Option.map_some']
    have happ : applySet [("cutoff_date", BVal.str cd), ("updated_at", BVal.time now)] d0
        = setField (setField d0 "cutoff_date" (BVal.str cd)) "updated_at" (BVal.time now) := rfl
    rw [happ, hself, lookup_setField_ne _ _ _ _ (by decide),
        lookup_setField_ne _ _ _ _ (by decide)]
  · -- add_rule_application_root_version: timestamps untouched
    cases hm : d0.lookup "rule_application_root_versions" with
    | none =>
      simp only [add_rule_application_root_version, hparse, updateOne, hfind, hm,
        Bool.false_eq_true, if_false, storedDoc]
      rw [find?_replaceFirst_self docs k _ (k, d0) hfind]
      simp only [Option.map_some']
      rw [lookup_setField_ne _ _ _ _ (by decide), lookup_setField_ne _ _ _ _ (by decide)]
    | some bv =>
      cases bv with
      | strArr l2 =>
        simp only [add_rule_application_root_version, hparse, updateOne, hfind, hm,
          Bool.false_eq_true, if_false, storedDoc]
        rw [find?_replaceFirst_self docs k _ (k, d0) hfind]
        simp only [Option.map_some']
        rw [lookup_setField_ne _ _ _ _ (by decide), lookup_setField_ne _ _ _ _ (by decide)]
      | null =>
        simp only [add_rule_application_root_version, hparse, updateOne, hfind, hm,
          Bool.false_eq_true, if_false, storedDoc, hfind]
        rfl
      | bool b =>
        simp only [add_rule_application_root_version, hparse, updateOne, hfind, hm,
          Bool.false_eq_true, if_false, storedDoc, hfind]
        rfl
      | int n =>
        simp only [add_rule_application_root_version, hparse, updateOne, hfind, hm,
          Bool.false_eq_true, if_false, storedDoc, hfind]
        rfl
      | str s2 =>
        simp only [add_rule_application_root_version, hparse, updateOne, hfind, hm,
          Bool.false_eq_true, if_false, storedDoc, hfind]
        rfl
      | oid n =>
        simp only [add_rule_application_root_version, hparse, updateOne, hfind, hm,
          Bool.false_eq_true, if_false, storedDoc, hfind]
        rfl
      | time t =>
        simp only [add_rule_application_root_version, hparse, updateOne, hfind, hm,
          Bool.false_eq_true, if_false, storedDoc, hfind]
        rfl
      | strMap m =>
        simp only [add_rule_application_root_version, hparse, updateOne, hfind, hm,
          Bool.false_eq_true, if_false, storedDoc, hfind]
        rfl
  · -- remove_rule_application_root_version: timestamps untouched
    cases hm : d0.lookup "rule_application_root_versions" with
    | none =>
      simp only [remove_rule_application_root_version, hparse, updateOne, hfind, hm,
        Bool.false_eq_true, if_false, storedDoc]
      rw [find?_replaceFirst_self docs k _ (k, d0) hfind]
      simp only [Option.map_some']
    | some bv =>
      cases bv with
      | strArr l2 =>
        simp only [remove_rule_application_root_version, hparse, updateOne, hfind, hm,
          Bool.false_eq_true, if_false, storedDoc]
        rw [find?_replaceFirst_self docs k _ (k, d0) hfind]
        simp only [Option.map_some']
        rw [lookup_setField_ne _ _ _ _ (by decide), lookup_setField_ne _ _ _ _ (by decide)]
      | null =>
        simp only [remove_rule_application_root_version, hparse, updateOne, hfind, hm,
          Bool.false_eq_true, if_false, storedDoc, hfind]
        rfl
      | bool b =>
        simp only [remove_rule_application_root_version, hparse, updateOne, hfind, hm,
          Bool.false_eq_true, if_false, storedDoc, hfind]
        rfl
      | int n =>
        simp only [remove_rule_application_root_version, hparse, updateOne, hfind, hm,
          Bool.false_eq_true, if_false, storedDoc, hfind]
        rfl
      | str s2 =>
        simp only [remove_rule_application_root_version, hparse, updateOne, hfind, hm,
          Bool.false_eq_true, if_false, storedDoc, hfind]
        rfl
      | oid n =>
        simp only [remove_rule_application_root_version, hparse, updateOne, hfind, hm,
          Bool.false_eq_true, if_false, storedDoc, hfind]
        rfl
      | time t =>
        simp only [remove_rule_application_root_version, hparse, updateOne, hfind, hm,
          Bool.false_eq_true, if_false, storedDoc, hfind]
        rfl
      | strMap m =>
        simp only [remove_rule_application_root_version, hparse, updateOne, hfind, hm,
          Bool.false_eq_true, if_false, storedDoc, hfind]
        rfl
  · -- create sets created_at
    simp only [create_transaction, huid, insertOne, hfresh, Bool.false_eq_true,
      if_false, storedDoc]
    rw [find?_append_fresh docs oidn _ hfresh]
    simp only [Option.map_some']
    unfold add_timestamps
    rw [if_neg (by simp), lookup_setField_self]


/-- Witness for C3 (amended) at a concrete one-document store. -/
theorem C3_updated_at_refresh_except_root_versions_witness :
    ((update_transaction [(1, [("created_at", BVal.time 3), ("updated_at", BVal.time 3)])] false 7 "000000000000000000000001" [("name", BVal.str "x")]).1 = .ok true →
    (storedDoc (update_transaction [(1, [("created_at", BVal.time 3), ("updated_at", BVal.time 3)])] false 7 "000000000000000000000001" [("name", BVal.str "x")]).2 1).map
      (fun d => (d.lookup "updated_at", d.lookup "created_at"))
      = some (some (.time 7), List.lookup "created_at" [("created_at", BVal.time 3), ("updated_at", BVal.time 3)])) ∧
    ((add_new_column_datatype [(1, [("created_at", BVal.time 3), ("updated_at", BVal.time 3)])] false 7 "000000000000000000000001" "c" "int64").1 = .ok true →
    (storedDoc (add_new_column_datatype [(1, [("created_at", BVal.time 3), ("updated_at", BVal.time 3)])] false 7 "000000000000000000000001" "c" "int64").2 1).map
      (fun d => (d.lookup "updated_at", d.lookup "created_at"))
      = some (some (.time 7), List.lookup "created_at" [("created_at", BVal.time 3), ("updated_at", BVal.time 3)])) ∧
    ((set_base_file [(1, [("created_at", BVal.time 3), ("updated_at", BVal.time 3)])] false 7 "000000000000000000000001" "v1").1 = .ok true →
    (storedDoc (set_base_file [(1, [("created_at", BVal.time 3), ("updated_at", BVal.time 3)])] false 7 "000000000000000000000001" "v1").2 1).map
      (fun d => (d.lookup "updated_at", d.lookup "created_at"))
      = some (some (.time 7), List.lookup "created_at" [("created_at", BVal.time 3), ("updated_at", BVal.time 3)])) ∧
    ((set_preprocessed_file [(1, [("created_at", BVal.time 3), ("updated_at", BVal.time 3)])] false 7 "000000000000000000000001" "v2").1 = .ok true →
    (storedDoc (set_preprocessed_file [(1, [("created_at", BVal.time 3), ("updated_at", BVal.time 3)])] false 7 "000000000000000000000001" "v2").2 1).map
      (fun d => (d.lookup "updated_at", d.lookup "created_at"))
      = some (some (.time 7), List.lookup "created_at" [("created_at", BVal.time 3), ("updated_at", BVal.time 3)])) ∧
    ((change_transaction_name [(1, [("created_at", BVal.time 3), ("updated_at", BVal.time 3)])] false 7 "000000000000000000000001" "m").1 = .ok true →
    (storedDoc (change_transaction_name [(1, [("created_at", BVal.time 3), ("updated_at", BVal.time 3)])] false 7 "000000000000000000000001" "m").2 1).map
      (fun d => (d.lookup "updated_at", d.lookup "created_at"))
      = some (some (.time 7), List.lookup "created_at" [("created_at", BVal.time 3), ("updated_at", BVal.time 3)])) ∧
    ((update_cutoff_date [(1, [("created_at", BVal.time 3), ("updated_at", BVal.time 3)])] false 7 "000000000000000000000001" "01/01/2024").1 = .ok true →
    (storedDoc (update_cutoff_date [(1, [("created_at", BVal.time 3), ("updated_at", BVal.time 3)])] false 7 "000000000000000000000001" "01/01/2024").2 1).map
      (fun d => (d.lookup "updated_at", d.lookup "created_at"))
      = some (some (.time 7), List.lookup "created_at" [("created_at", BVal.time 3), ("updated_at", BVal.time 3)])) ∧
    ((storedDoc (add_rule_application_root_version [(1, [("created_at", BVal.time 3), ("updated_at", BVal.time 3)])] false "000000000000000000000001" "v1").2 1).map
      (fun d => (d.lookup "updated_at", d.lookup "created_at"))
      = some (List.lookup "updated_at" [("created_at", BVal.time 3), ("updated_at", BVal.time 3)], List.lookup "created_at" [("created_at", BVal.time 3), ("updated_at", BVal.time 3)])) ∧
    ((storedDoc (remove_rule_application_root_version [(1, [("created_at", BVal.time 3), ("updated_at", BVal.time 3)])] false "000000000000000000000001" "v1").2 1).map
      (fun d => (d.lookup "updated_at", d.lookup "created_at"))
      = some (List.lookup "updated_at" [("created_at", BVal.time 3), ("updated_at", BVal.time 3)], List.lookup "created_at" [("created_at", BVal.time 3), ("updated_at", BVal.time 3)])) ∧
    ((storedDoc (create_transaction [(1, [("created_at", BVal.time 3), ("updated_at", BVal.time 3)])] false 2 9 "000000000000000000000003" "n2" "p2" none none).2 2).map
      (fun d => d.lookup "created_at") = some (some (.time 9))) :=
  C3_updated_at_refresh_except_root_versions [(1, [("created_at", BVal.time 3), ("updated_at", BVal.time 3)])] 1
    "000000000000000000000001" 7 [("created_at", BVal.time 3), ("updated_at", BVal.time 3)] [("name", BVal.str "x")]
    "v1" "v2" "m" "01/01/2024" "c" "int64" 2 9 3 "000000000000000000000003" "n2" "p2"
    none none (by decide) (by decide) (by decide) (by decide) (by decide) (by decide)


/-- Per-element behaviour of the `get_transactions_by_user` loop body on a
document whose `user_id` matches the queried owner: the enrichment succeeds,
renders `user_id` as the owner's hex string, sets `base_file_location` from
the version lookup / to `""` / not at all according to `base_file`, and leaves
every other field unchanged. -/
theorem enrichTransaction_ok (vlookup : BVal → Option Doc) (u : Nat)
    (kid : Nat) (d : Doc) (hp : d.lookup "user_id" = some (.oid u)) :
    ∃ t, enrichTransaction vlookup (("_id", BVal.oid kid) :: d) = .ok t ∧
      t.lookup "user_id" = some (.str (oidToString u)) ∧
      (match d.lookup "base_file" with
       | some bf =>
         if truthy (some bf) then
           (match vlookup bf with
            | some bv =>
              t.lookup "base_file_location" = some (docGetD bv "files_path" (.str ""))
            | none => t.lookup "base_file_location" = d.lookup "base_file_location")
         else t.lookup "base_file_location" = some (.str "")
       | none => t.lookup "base_file_location" = some (.str "")) ∧
      (∀ key, key ≠ "_id" → key ≠ "user_id" → key ≠ "base_file_location" →
        t.lookup key = d.lookup key) := by
  have hcons : ∀ key, key ≠ "_id" →
      (("_id", BVal.oid kid) :: d).lookup key = d.lookup key := by
    intro key hk
    rw [List.lookup_cons, beq_false_of_ne hk]
  have ht1u : (setField (("_id", BVal.oid kid) :: d) "_id"
      (.str (pyStr (BVal.oid kid)))).lookup "user_id" = some (.oid u) := by
    rw [lookup_setField_ne _ _ _ _ (by decide), hcons _ (by decide), hp]
  have ht2 : ∀ key, key ≠ "_id" → key ≠ "user_id" →
      (setField (setField (("_id", BVal.oid kid) :: d) "_id"
          (.str (pyStr (BVal.oid kid)))) "user_id"
          (.str (pyStr (BVal.oid u)))).lookup key = d.lookup key := by
    intro key h1 h2
    rw [lookup_setField_ne _ _ _ _ h2, lookup_setField_ne _ _ _ _ h1, hcons _ h1]
  have ht2u : (setField (setField (("_id", BVal.oid kid) :: d) "_id"
      (.str (pyStr (BVal.oid kid)))) "user_id"
      (.str (pyStr (BVal.oid u)))).lookup "user_id"
      = some (.str (oidToString u)) := lookup_setField_self _ _ _
  simp only [enrichTransaction, List.lookup_cons_self, ht1u,
    ht2 "base_file" (by decide) (by decide)]
  cases hbf : d.lookup "base_file" with
  | none =>
    dsimp only
    refine ⟨_, rfl, ?_, ?_, ?_⟩
    · rw [lookup_setField_ne _ _ _ _ (by decide)]
      exact ht2u
    · exact lookup_setField_self _ _ _
    · intro key h1 h2 h3
      rw [lookup_setField_ne _ _ _ _ h3]
      exact ht2 key h1 h2
  | some bf =>
    dsimp only
    cases ht : truthy (some bf) with
    | false =>
      refine ⟨_, rfl, ?_, ?_, ?_⟩
      · rw [lookup_setField_ne _ _ _ _ (by decide)]
        exact ht2u
      · exact lookup_setField_self _ _ _
      · intro key h1 h2 h3
        rw [lookup_setField_ne _ _ _ _ h3]
        exact ht2 key h1 h2
    | true =>
      cases hv : vlookup bf with
      | none =>
        dsimp only
        refine ⟨_, rfl, ht2u, ?_, ?_⟩
        · exact ht2 _ (by decide) (by decide)
        · intro key h1 h2 _
          exact ht2 key h1 h2
      | some bv =>
        dsimp only
        refine ⟨_, rfl, ?_, ?_, ?_⟩
        · rw [lookup_setField_ne _ _ _ _ (by decide)]
          exact ht2u
        · exact lookup_setField_self _ _ _
        · intro key h1 h2 h3
          rw [lookup_setField_ne _ _ _ _ h3]
          exact ht2 key h1 h2


/-- The loop of `get_transactions_by_user` over a run of owner-matching
documents: every enrichment succeeds and the results correspond pairwise to
the stored documents. -/
theorem mapM_enrich_ok (vlookup : BVal → Option Doc) (u : Nat) :
    ∀ l : Docs, (∀ p ∈ l, p.2.lookup "user_id" = some (.oid u)) →
    ∃ L, (l.map (fun p => ("_id", BVal.oid p.1) :: p.2)).mapM
        (enrichTransaction vlookup) = .ok L ∧
      List.Forall₂ (fun p t =>
        t.lookup "user_id" = some (.str (oidToString u)) ∧
        (match p.2.lookup "base_file" with
         | some bf =>
           if truthy (some bf) then
             (match vlookup bf with
              | some bv =>
                t.lookup "base_file_location" = some (docGetD bv "files_path" (.str ""))
              | none => t.lookup "base_file_location" = p.2.lookup "base_file_location")
           else t.lookup "base_file_location" = some (.str "")
         | none => t.lookup "base_file_location" = some (.str "")) ∧
        (∀ key, key ≠ "_id" → key ≠ "user_id" → key ≠ "base_file_location" →
          t.lookup key = p.2.lookup key)) l L := by
  intro l
  induction l with
  | nil => intro _; exact ⟨[], rfl, List.Forall₂.nil⟩
  | cons p rest ih =>
    intro hall
    obtain ⟨t, ht, ht1, ht2, ht3⟩ := enrichTransaction_ok vlookup u p.1 p.2
      (hall p (by simp))
    obtain ⟨L, hL, hF⟩ := ih (fun q hq => hall q (by simp [hq]))
    refine ⟨t :: L, ?_, List.Forall₂.cons ⟨ht1, ht2, ht3⟩ hF⟩
    rw [List.map_cons, List.mapM_cons, ht, hL]
    rfl

/-- C6 counterexample: a store with one transaction whose `base_file` is set
while the version lookup misses; the returned entry does NOT carry a
`base_file_location` field at all, whereas the claim says every entry carries
the field (with `""` on a lookup miss). -/
theorem C6_counterexample_location_absent_on_lookup_miss :
    get_transactions_by_user
        [(1, [("user_id", BVal.oid 2), ("base_file", BVal.str "v1")])]
        false (fun _ => none) "000000000000000000000002"
      = .ok [[("_id", BVal.str "000000000000000000000001"),
              ("user_id", BVal.str "000000000000000000000002"),
              ("base_file", BVal.str "v1")]] ∧
    (get_transactions_by_user
        [(1, [("user_id", BVal.oid 2), ("base_file", BVal.str "v1")])]
        false (fun _ => none) "000000000000000000000002").toOption.map
      (fun l => l.map (fun t => t.lookup "base_file_location"))
      = some [none] := by decide

/-- C6 (amended): listing by owner returns exactly the stored documents whose
`user_id` equals the parsed owner id, in store order, each enriched as
follows: `user_id` is rendered as the owner's hex string;
`base_file_location` equals the looked-up version's `files_path` (defaulting
to `""` when the version record lacks it) when `base_file` is truthy and the
lookup succeeds, equals `""` when `base_file` is missing or falsy, and is NOT
set by the method when `base_file` is set but the lookup misses (the field
stays whatever the stored document had); every other field is unchanged. -/
theorem C6_list_by_owner_enriched (docs : Docs) (u : Nat) (uid : String)
    (vlookup : BVal → Option Doc) (hu : parseOid uid = some u) :
    ∃ L, get_transactions_by_user docs false vlookup uid = .ok L ∧
      List.Forall₂ (fun p t =>
        t.lookup "user_id" = some (.str (oidToString u)) ∧
        (match p.2.lookup "base_file" with
         | some bf =>
           if truthy (some bf) then
             (match vlookup bf with
              | some bv =>
                t.lookup "base_file_location" = some (docGetD bv "files_path" (.str ""))
              | none => t.lookup "base_file_location" = p.2.lookup "base_file_location")
           else t.lookup "base_file_location" = some (.str "")
         | none => t.lookup "base_file_location" = some (.str "")) ∧
        (∀ key, key ≠ "_id" → key ≠ "user_id" → key ≠ "base_file_location" →
          t.lookup key = p.2.lookup key))
        (docs.filter (fun p => p.2.lookup "user_id" == some (.oid u))) L := by
  obtain ⟨L, hL, hF⟩ := mapM_enrich_ok vlookup u
    (docs.filter (fun p => p.2.lookup "user_id" == some (.oid u)))
    (fun p hp => by simpa using List.of_mem_filter hp)
  refine ⟨L, ?_, hF⟩
  simp only [get_transactions_by_user, hu, findByUser, Bool.false_eq_true, if_false]
  exact hL


/-- Witness for C6 (amended): a two-document store (one matching owner, one
not) and a version lookup that knows `"v1"`. -/
theorem C6_list_by_owner_enriched_witness :
    ∃ L, get_transactions_by_user
        [(1, [("user_id", BVal.oid 2), ("base_file", BVal.str "v1")]),
         (3, [("user_id", BVal.oid 4)])]
        false (fun bf => if bf == BVal.str "v1" then some [("files_path", BVal.str "/files/v1")] else none) "000000000000000000000002" = .ok L ∧
      List.Forall₂ (fun p t =>
        t.lookup "user_id" = some (.str (oidToString 2)) ∧
        (match p.2.lookup "base_file" with
         | some bf =>
           if truthy (some bf) then
             (match (fun bf => if bf == BVal.str "v1" then some [("files_path", BVal.str "/files/v1")] else none) bf with
              | some bv =>
                t.lookup "base_file_location" = some (docGetD bv "files_path" (.str ""))
              | none => t.lookup "base_file_location" = p.2.lookup "base_file_location")
           else t.lookup "base_file_location" = some (.str "")
         | none => t.lookup "base_file_location" = some (.str "")) ∧
        (∀ key, key ≠ "_id" → key ≠ "user_id" → key ≠ "base_file_location" →
          t.lookup key = p.2.lookup key))
        (([(1, [("user_id", BVal.oid 2), ("base_file", BVal.str "v1")]),
         (3, [("user_id", BVal.oid 4)])]).filter
          (fun p => p.2.lookup "user_id" == some (.oid 2))) L :=
  C6_list_by_owner_enriched
    [(1, [("user_id", BVal.oid 2), ("base_file", BVal.str "v1")]),
         (3, [("user_id", BVal.oid 4)])]
    2 "000000000000000000000002"
    (fun bf => if bf == BVal.str "v1" then some [("files_path", BVal.str "/files/v1")] else none) (by decide)


end TransactionModel
